import Mathlib

/-!
Verification of the MCP (Model Context Protocol) line-delimited JSON-RPC
server of the kagimcp-zed repository, as a shallow embedding in Lean 4.

The embedded code lives in two Rust source files:
* `crates/mcp-server/src/lib.rs` — the generic `McpServer<T: ToolHandler>`
  library (request structures, dispatcher, transport loop);
* `crates/kagi-mcp-server/src/main.rs` — the standalone Kagi server binary
  with its own (near-identical) structures, dispatcher and loop.

JSON values are modelled by the inductive `Json` (numbers as `Int`; the ids
and payloads the code manipulates are treated opaquely, so the exact number
representation is irrelevant to every property proved below).  Network-bound
tool invocations (`handle_search`, `handle_summarize`, `handle_fastgpt`,
`handle_enrich`) suspend on HTTP calls; they are modelled as oracle fields of
the server record, cut exactly at the call sites that appear in
`handle_request`.  Everything on the dispatcher side of those cuts is
translated from the source.
-/

/-- Model of `serde_json::Value`: JSON values.  Objects are association
lists in serialization order; numbers are modelled as `Int` (no property
below inspects a number). -/
inductive Json where
  | null : Json
  | bool : Bool → Json
  | num : Int → Json
  | str : String → Json
  | arr : List Json → Json
  | obj : List (String × Json) → Json

/-- Model of `Value::get(key)` on objects followed by the implicit map
lookup: the value of the first field named `k`, `none` on absence or on a
non-object. -/
def Json.getField : Json → String → Option Json
  | .obj fields, k => fields.lookup k
  | _, _ => none

/-- Model of `Value::as_str()`: the string content, `none` for non-strings. -/
def Json.asStr : Json → Option String
  | .str s => some s
  | _ => none

/-- Model of `Value::as_array()`. -/
def Json.asArr : Json → Option (List Json)
  | .arr xs => some xs
  | _ => none

/-- Model of `Value::as_bool()`. -/
def Json.asBool : Json → Option Bool
  | .bool b => some b
  | _ => none

/-- `struct McpRequest` (identical in both source files): `jsonrpc`, an
opaque `id`, a `method` string and optional `params`. -/
structure McpRequest where
  jsonrpc : String
  id : Json
  method : String
  params : Option Json

/-- `struct McpErrorResponse`: `code`, `message`, optional `data`
(`data` is skipped on the wire when absent). -/
structure McpErrorResponse where
  code : Int
  message : String
  data : Option Json

/-- `struct McpResponse`.  Both `result` and `error` carry
`#[serde(skip_serializing_if = "Option::is_none")]`, so a field is present
in the encoded output line exactly when the `Option` is `some`. -/
structure McpResponse where
  jsonrpc : String
  id : Json
  result : Option Json
  error : Option McpErrorResponse

/-- `struct Tool`: a catalog entry; `input_schema` is serialized under the
key `inputSchema`. -/
structure Tool where
  name : String
  description : String
  input_schema : Json

/-- `struct ServerInfo`. -/
structure ServerInfo where
  name : String
  version : String

/-- `pub const MCP_VERSION: &str = "2024-11-05"`. -/
def MCP_VERSION : String := "2024-11-05"

/-- Exactly one of the `result`/`error` fields reaches the encoded output
(each is serialized iff it is `some`, by its `skip_serializing_if`
attribute). -/
def McpResponse.exclusive (r : McpResponse) : Bool :=
  r.result.isSome.xor r.error.isSome

/-- Serialization of a `Tool` by its serde derive: `name`, `description`,
and `input_schema` renamed to `inputSchema`. -/
def toolJson (t : Tool) : Json :=
  .obj [("name", .str t.name), ("description", .str t.description),
        ("inputSchema", t.input_schema)]

/-- Model of serde's derived `Deserialize for McpRequest` applied to a JSON
value: the input must be an object whose `jsonrpc` field is present and a
string, whose `id` field is present (any value), and whose `method` field is
present and a string; `params: Option<Value>` is `none` when the field is
absent or `null`.  Unknown extra fields are ignored (serde's default).  The
error strings stand in for serde's diagnostic messages, which live in the
serde library, not in this repository; no property below depends on their
wording. -/
def decodeRequest (j : Json) : Except String McpRequest :=
  match j with
  | .obj _ =>
    match j.getField "jsonrpc" with
    | none => .error "missing field jsonrpc"
    | some jv =>
      match jv.asStr with
      | none => .error "invalid type for field jsonrpc"
      | some jr =>
        match j.getField "id" with
        | none => .error "missing field id"
        | some idv =>
          match j.getField "method" with
          | none => .error "missing field method"
          | some mv =>
            match mv.asStr with
            | none => .error "invalid type for field method"
            | some m =>
              .ok { jsonrpc := jr, id := idv, method := m,
                    params := match j.getField "params" with
                              | some .null => none
                              | p => p }
  | _ => .error "invalid type: expected an object"

/-- `type ToolResult = Result<Vec<Value>, String>`. -/
abbrev ToolResult := Except String (List Json)

/-- The `ToolHandler` trait of `crates/mcp-server/src/lib.rs`: an
implementation provides `handle_tool` (modelled as a pure function — the
trait method is `async` and may perform I/O, but the dispatcher only
observes its returned `ToolResult`) and the static catalog `get_tools`. -/
structure ToolHandler where
  handleTool : String → Json → ToolResult
  getTools : List Tool

/-- `McpServer<T>`: server identity plus the injected tool handler
(`McpServer::new` stores both; neither is ever mutated). -/
structure McpServer where
  server_info : ServerInfo
  tool_handler : ToolHandler

/-- Serialization of the `Capabilities` value built in `handle_initialize`:
`tools: Some(json!({}))`, `resources: None`, `prompts: None`.  The struct
has no skip attributes, so the `None` fields serialize as `null`. -/
def capabilitiesJson : Json :=
  .obj [("tools", .obj []), ("resources", .null), ("prompts", .null)]

/-- Serialization of a `ServerInfo` value. -/
def serverInfoJson (info : ServerInfo) : Json :=
  .obj [("name", .str info.name), ("version", .str info.version)]

/-- `McpServer::handle_initialize`. -/
def McpServer.handleInitialize (s : McpServer) (req : McpRequest) : McpResponse :=
  { jsonrpc := "2.0", id := req.id,
    result := some (.obj [("protocolVersion", .str MCP_VERSION),
                          ("capabilities", capabilitiesJson),
                          ("serverInfo", serverInfoJson s.server_info)]),
    error := none }

/-- `McpServer::handle_tools_list`: wraps the handler's catalog under
`tools`. -/
def McpServer.handleToolsList (s : McpServer) (req : McpRequest) : McpResponse :=
  { jsonrpc := "2.0", id := req.id,
    result := some (.obj [("tools", .arr (s.tool_handler.getTools.map toolJson))]),
    error := none }

/-- `McpServer::handle_tools_call`: checks `params`, then
`params.get("name").and_then(as_str)`, then `params.get("arguments")`, and
only then invokes the handler; each failed check yields `-32602` with its
fixed message. -/
def McpServer.handleToolsCall (s : McpServer) (req : McpRequest) : McpResponse :=
  match req.params with
  | some params =>
    match (params.getField "name").bind Json.asStr with
    | some name =>
      match params.getField "arguments" with
      | some args =>
        match s.tool_handler.handleTool name args with
        | .ok content =>
          { jsonrpc := "2.0", id := req.id,
            result := some (.obj [("content", .arr content)]), error := none }
        | .error e =>
          { jsonrpc := "2.0", id := req.id, result := none,
            error := some { code := -1, message := e, data := none } }
      | none =>
        { jsonrpc := "2.0", id := req.id, result := none,
          error := some { code := -32602, message := "Missing arguments parameter",
                          data := none } }
    | none =>
      { jsonrpc := "2.0", id := req.id, result := none,
        error := some { code := -32602, message := "Missing name parameter",
                        data := none } }
  | none =>
    { jsonrpc := "2.0", id := req.id, result := none,
      error := some { code := -32602, message := "Missing parameters",
                      data := none } }

/-- `McpServer::handle_request`: the four-way branch on the method string.
In the source every branch returns `Ok(response)` (the `McpResult` wrapper
is never `Err` here), so the model returns the response directly. -/
def McpServer.handleRequest (s : McpServer) (req : McpRequest) : McpResponse :=
  if req.method = "initialize" then s.handleInitialize req
  else if req.method = "tools/list" then s.handleToolsList req
  else if req.method = "tools/call" then s.handleToolsCall req
  else
    { jsonrpc := "2.0", id := req.id, result := none,
      error := some { code := -32601,
                      message := "Method not found: " ++ req.method,
                      data := none } }

/-- One line read by a transport loop, after `read_line` and `trim`:
blank (empty after trimming), text that is not valid JSON (with the parse
error's message), or a parsed JSON value.  End-of-stream is the end of the
input list. -/
inductive ReadLine where
  | blank : ReadLine
  | notJson : String → ReadLine
  | json : Json → ReadLine

/-- The null-id `-32603` response the generic `McpServer::run` writes when
`handle_line` fails — its only failure is `serde_json::from_str` erring,
which `?` converts into `McpError::Json`, displayed as `JSON error: {e}`. -/
def internalErrorResponse (e : String) : McpResponse :=
  { jsonrpc := "2.0", id := .null, result := none,
    error := some { code := -32603,
                    message := "Internal error: " ++ ("JSON error: " ++ e),
                    data := none } }

/-- `McpServer::run`, the transport loop of the library: per line — break on
end-of-stream (the end of the input list, where the source returns
`Ok(())`), skip blank lines, otherwise `handle_line` (decode then dispatch),
writing one response line; a decode failure is answered by the `Err`
branch's null-id internal-error response.  The `Except` mirrors the
`McpResult<()>` return type; stream writes are modelled as infallible, so
the error case never arises, and the value carried on success is the
sequence of response lines written. -/
def McpServer.run (s : McpServer) : List ReadLine → Except String (List McpResponse)
  | [] => .ok []
  | .blank :: rest => s.run rest
  | .notJson e :: rest => (s.run rest).map (internalErrorResponse e :: ·)
  | .json j :: rest =>
    match decodeRequest j with
    | .ok req => (s.run rest).map (s.handleRequest req :: ·)
    | .error e => (s.run rest).map (internalErrorResponse e :: ·)

/-- The null-id `-32700` response `KagiMcpServer::run` writes when
`serde_json::from_str::<McpRequest>` fails on a line. -/
def parseErrorResponse (e : String) : McpResponse :=
  { jsonrpc := "2.0", id := .null, result := none,
    error := some { code := -32700, message := "Parse error: " ++ e,
                    data := none } }

/-- The success response every tool branch of `KagiMcpServer::handle_request`
builds: `json!({"content": [{"type": "text", "text": result}]})` with the
request's id and no error. -/
def kagiContentResponse (id : Json) (text : String) : McpResponse :=
  { jsonrpc := "2.0", id := id,
    result := some (.obj [("content",
      .arr [.obj [("type", .str "text"), ("text", .str text)]])]),
    error := none }

/-- The error response shape every failing branch of
`KagiMcpServer::handle_request` builds: the request's id, no result, and an
`McpErrorResponse` with the branch's code and message and no data. -/
def kagiErrResponse (id : Json) (code : Int) (msg : String) : McpResponse :=
  { jsonrpc := "2.0", id := id, result := none,
    error := some { code := code, message := msg, data := none } }

/-- `KagiMcpServer`, the standalone binary's server.  The Rust struct holds
a `KagiClient` and a default `SummarizerEngine`; its dispatcher reaches them
only through the four suspending methods `handle_search`,
`handle_summarize`, `handle_fastgpt` and `handle_enrich` (network I/O plus
deterministic formatting), which are modelled as oracle fields cut at the
exact call sites of `handle_request`, each returning the
`Result<String, String>` the call site matches on.  `pkgVersion` models the
compile-time constant `env!("CARGO_PKG_VERSION")`. -/
structure KagiMcpServer where
  pkgVersion : String
  searchOutcome : List Json → Except String String
  summarizeOutcome : String → Option String → Option String → Option String →
    Except String String
  fastgptOutcome : String → Option Bool → Option Bool → Except String String
  enrichWebOutcome : String → Except String String
  enrichNewsOutcome : String → Except String String

/-- `KagiMcpServer::get_tools`: the static five-entry catalog, transcribed
field by field (schemas in the source's `json!` literal order). -/
def KagiMcpServer.getTools (_s : KagiMcpServer) : List Tool :=
  [ { name := "kagi_search_fetch",
      description := "Fetch web results based on one or more queries using the Kagi Search API. Use for general search and when the user explicitly tells you to 'fetch' results/information. Results are from all queries given. They are numbered continuously, so that a user may be able to refer to a result by a specific number.",
      input_schema := .obj
        [ ("type", .str "object"),
          ("properties", .obj
            [ ("queries", .obj
                [ ("type", .str "array"),
                  ("items", .obj [("type", .str "string")]),
                  ("description", .str "One or more concise, keyword-focused search queries. Include essential context within each query for standalone use.") ]) ]),
          ("required", .arr [.str "queries"]) ] },
    { name := "kagi_summarizer",
      description := "Summarize content from a URL using the Kagi Summarizer API. The Summarizer can summarize any document type (text webpage, video, audio, etc.)",
      input_schema := .obj
        [ ("type", .str "object"),
          ("properties", .obj
            [ ("url", .obj
                [ ("type", .str "string"),
                  ("description", .str "A URL to a document to summarize.") ]),
              ("summary_type", .obj
                [ ("type", .str "string"),
                  ("enum", .arr [.str "summary", .str "takeaway"]),
                  ("default", .str "summary"),
                  ("description", .str "Type of summary to produce. Options are 'summary' for paragraph prose and 'takeaway' for a bulleted list of key points.") ]),
              ("engine", .obj
                [ ("type", .str "string"),
                  ("enum", .arr [.str "cecil", .str "agnes", .str "daphne", .str "muriel"]),
                  ("description", .str "Summarization engine to use. Defaults to configured engine.") ]),
              ("target_language", .obj
                [ ("type", .str "string"),
                  ("description", .str "Desired output language using language codes (e.g., 'EN' for English). If not specified, the document's original language influences the output.") ]) ]),
          ("required", .arr [.str "url"]) ] },
    { name := "kagi_fastgpt",
      description := "Generate AI-powered answers to questions using the Kagi FastGPT API. This tool performs web searches automatically to provide well-referenced, up-to-date responses. Use for direct questions that need AI-generated answers with citations.",
      input_schema := .obj
        [ ("type", .str "object"),
          ("properties", .obj
            [ ("query", .obj
                [ ("type", .str "string"),
                  ("description", .str "The question or query to be answered by the AI.") ]),
              ("cache", .obj
                [ ("type", .str "boolean"),
                  ("description", .str "Whether to allow cached requests & responses. Defaults to true.") ]),
              ("web_search", .obj
                [ ("type", .str "boolean"),
                  ("description", .str "Whether to perform web searches to enrich answers. Currently, must be set to true.") ]) ]),
          ("required", .arr [.str "query"]) ] },
    { name := "kagi_enrich_web",
      description := "Find non-commercial, 'small web' content and discussions using Kagi's Web Enrichment API. Great for discovering unique websites and content that might not appear in regular search results.",
      input_schema := .obj
        [ ("type", .str "object"),
          ("properties", .obj
            [ ("query", .obj
                [ ("type", .str "string"),
                  ("description", .str "The search query to find non-commercial web content.") ]) ]),
          ("required", .arr [.str "query"]) ] },
    { name := "kagi_enrich_news",
      description := "Find non-mainstream news sources and discussions using Kagi's News Enrichment API. Useful for discovering alternative perspectives and news coverage.",
      input_schema := .obj
        [ ("type", .str "object"),
          ("properties", .obj
            [ ("query", .obj
                [ ("type", .str "string"),
                  ("description", .str "The search query to find non-mainstream news content.") ]) ]),
          ("required", .arr [.str "query"]) ] } ]

/-- The per-tool dispatch inside the `tools/call` branch of
`KagiMcpServer::handle_request` (the `match name { ... }` on the tool name,
reached once `params`, a string `name` and `arguments` are all present).
Rust's string `match` is a chain of equality tests, rendered here as nested
`if`s in arm order, with the wildcard arm last. -/
def KagiMcpServer.dispatchTool (s : KagiMcpServer) (id : Json) (name : String)
    (args : Json) : McpResponse :=
  if name = "kagi_search_fetch" then
    match (args.getField "queries").bind Json.asArr with
    | some queries =>
      match s.searchOutcome queries with
      | .ok result => kagiContentResponse id result
      | .error e => kagiErrResponse id (-1) e
    | none => kagiErrResponse id (-32602) "Missing or invalid 'queries' parameter"
  else if name = "kagi_summarizer" then
    match (args.getField "url").bind Json.asStr with
    | some url =>
      match s.summarizeOutcome url ((args.getField "engine").bind Json.asStr)
          ((args.getField "summary_type").bind Json.asStr)
          ((args.getField "target_language").bind Json.asStr) with
      | .ok result => kagiContentResponse id result
      | .error e => kagiErrResponse id (-1) e
    | none => kagiErrResponse id (-32602) "Missing 'url' parameter"
  else if name = "kagi_fastgpt" then
    match (args.getField "query").bind Json.asStr with
    | some query =>
      match s.fastgptOutcome query ((args.getField "cache").bind Json.asBool)
          ((args.getField "web_search").bind Json.asBool) with
      | .ok result => kagiContentResponse id result
      | .error e => kagiErrResponse id (-1) e
    | none => kagiErrResponse id (-32602) "Missing or invalid 'query' parameter"
  else if name = "kagi_enrich_web" then
    match (args.getField "query").bind Json.asStr with
    | some query =>
      match s.enrichWebOutcome query with
      | .ok result => kagiContentResponse id result
      | .error e => kagiErrResponse id (-1) e
    | none => kagiErrResponse id (-32602) "Missing or invalid 'query' parameter"
  else if name = "kagi_enrich_news" then
    match (args.getField "query").bind Json.asStr with
    | some query =>
      match s.enrichNewsOutcome query with
      | .ok result => kagiContentResponse id result
      | .error e => kagiErrResponse id (-1) e
    | none => kagiErrResponse id (-32602) "Missing or invalid 'query' parameter"
  else
    kagiErrResponse id (-32601) ("Tool '" ++ name ++ "' not found")

/-- `KagiMcpServer::handle_request`: `initialize` and `tools/list` literals,
the `tools/call` branch with its three structural checks before the tool
dispatch, and the unknown-method arm. -/
def KagiMcpServer.handleRequest (s : KagiMcpServer) (req : McpRequest) : McpResponse :=
  if req.method = "initialize" then
    { jsonrpc := "2.0", id := req.id,
      result := some (.obj [("protocolVersion", .str "2024-11-05"),
                            ("capabilities", .obj [("tools", .obj [])]),
                            ("serverInfo", .obj [("name", .str "kagi-mcp-server"),
                                                 ("version", .str s.pkgVersion)])]),
      error := none }
  else if req.method = "tools/list" then
    { jsonrpc := "2.0", id := req.id,
      result := some (.obj [("tools", .arr (s.getTools.map toolJson))]),
      error := none }
  else if req.method = "tools/call" then
    match req.params with
    | some params =>
      match (params.getField "name").bind Json.asStr with
      | some name =>
        match params.getField "arguments" with
        | some args => s.dispatchTool req.id name args
        | none => kagiErrResponse req.id (-32602) "Missing arguments parameter"
      | none => kagiErrResponse req.id (-32602) "Missing name parameter"
    | none => kagiErrResponse req.id (-32602) "Missing parameters"
  else
    kagiErrResponse req.id (-32601) ("Unknown method: " ++ req.method)

/-- `KagiMcpServer::run`, the binary's transport loop: break on
end-of-stream (`Ok(())`), skip blank lines, answer each line that fails
`serde_json::from_str::<McpRequest>` with the null-id `-32700` parse-error
response, dispatch the rest; one response line per non-blank input line.
As in `McpServer.run`, writes are modelled as infallible and the success
value is the sequence of response lines written. -/
def KagiMcpServer.run (s : KagiMcpServer) : List ReadLine → Except String (List McpResponse)
  | [] => .ok []
  | .blank :: rest => s.run rest
  | .notJson e :: rest => (s.run rest).map (parseErrorResponse e :: ·)
  | .json j :: rest =>
    match decodeRequest j with
    | .ok req => (s.run rest).map (s.handleRequest req :: ·)
    | .error e => (s.run rest).map (parseErrorResponse e :: ·)

/-- All responses carried by a transport-loop result satisfy the
result/error exclusivity check (vacuously true for the error case, which
the loops never produce in this model). -/
def outputsExclusive : Except String (List McpResponse) → Bool
  | .ok out => out.all McpResponse.exclusive
  | .error _ => true

/-- A minimal tool handler for exercising the generic server on concrete
inputs; it mirrors the `TestHandler` of the library's unit tests. -/
def demoHandler : ToolHandler :=
  { handleTool := fun name _args =>
      if name = "test" then
        .ok [.obj [("type", .str "text"), ("text", .str "test result")]]
      else .error ("Unknown tool: " ++ name),
    getTools := [{ name := "test", description := "A test tool",
                   input_schema := .obj [("type", .str "object")] }] }

/-- A concrete generic server instance (name and version as in the
library's unit tests). -/
def demoMcpServer : McpServer :=
  { server_info := { name := "test-server", version := "1.0.0" },
    tool_handler := demoHandler }

/-- A concrete Kagi server instance whose oracles return constant
outcomes, for evaluating the dispatcher on concrete inputs. -/
def demoKagiServer : KagiMcpServer :=
  { pkgVersion := "0.0.0",
    searchOutcome := fun _ => .ok "results",
    summarizeOutcome := fun _ _ _ _ => .ok "summary",
    fastgptOutcome := fun _ _ _ => .ok "answer",
    enrichWebOutcome := fun _ => .ok "web",
    enrichNewsOutcome := fun _ => .ok "news" }

theorem mcp_handleRequest_exclusive (s : McpServer) (req : McpRequest) :
    (s.handleRequest req).exclusive = true := by
  unfold McpServer.handleRequest McpServer.handleInitialize McpServer.handleToolsList
    McpServer.handleToolsCall
  repeat' split
  all_goals rfl

theorem kagi_handleRequest_exclusive (k : KagiMcpServer) (req : McpRequest) :
    (k.handleRequest req).exclusive = true := by
  unfold KagiMcpServer.handleRequest KagiMcpServer.dispatchTool kagiContentResponse
    kagiErrResponse
  repeat' split
  all_goals rfl

theorem outputsExclusive_cons (x : Except String (List McpResponse)) (r : McpResponse)
    (hr : r.exclusive = true) (hx : outputsExclusive x = true) :
    outputsExclusive (x.map (r :: ·)) = true := by
  cases x with
  | error e => rfl
  | ok out => simpa [outputsExclusive, Except.map, List.all_cons, hr] using hx

theorem mcp_run_exclusive (s : McpServer) (input : List ReadLine) :
    outputsExclusive (s.run input) = true := by
  induction input with
  | nil => rfl
  | cons l rest ih =>
    cases l with
    | blank => simpa [McpServer.run] using ih
    | notJson e => exact outputsExclusive_cons _ _ rfl ih
    | json j =>
      cases hd : decodeRequest j with
      | ok req =>
        simp only [McpServer.run, hd]
        exact outputsExclusive_cons _ _ (mcp_handleRequest_exclusive s req) ih
      | error e =>
        simp only [McpServer.run, hd]
        exact outputsExclusive_cons _ _ rfl ih

theorem kagi_run_exclusive (k : KagiMcpServer) (input : List ReadLine) :
    outputsExclusive (k.run input) = true := by
  induction input with
  | nil => rfl
  | cons l rest ih =>
    cases l with
    | blank => simpa [KagiMcpServer.run] using ih
    | notJson e => exact outputsExclusive_cons _ _ rfl ih
    | json j =>
      cases hd : decodeRequest j with
      | ok req =>
        simp only [KagiMcpServer.run, hd]
        exact outputsExclusive_cons _ _ (kagi_handleRequest_exclusive k req) ih
      | error e =>
        simp only [KagiMcpServer.run, hd]
        exact outputsExclusive_cons _ _ rfl ih

/-- C1: for every response either server ever emits — any dispatched
request, any method, and any transport-loop input, well-formed or not —
exactly one of the `result`/`error` fields reaches the encoded output
(each is serialized iff `some`, by `skip_serializing_if`). -/
theorem C1_result_error_exclusive :
    (∀ (s : McpServer) (req : McpRequest), (s.handleRequest req).exclusive = true) ∧
    (∀ (k : KagiMcpServer) (req : McpRequest), (k.handleRequest req).exclusive = true) ∧
    (∀ (s : McpServer) (input : List ReadLine), outputsExclusive (s.run input) = true) ∧
    (∀ (k : KagiMcpServer) (input : List ReadLine), outputsExclusive (k.run input) = true) :=
  ⟨mcp_handleRequest_exclusive, kagi_handleRequest_exclusive,
   mcp_run_exclusive, kagi_run_exclusive⟩

/-- C2 counterexample: the claim fails on the generic library server.  On a
non-blank line that fails to decode, `McpServer::run`'s `Err` branch writes
a null-id response whose error code is `-32603` (internal error), not the
claimed `-32700`. -/
theorem C2_counterexample :
    demoMcpServer.run [ReadLine.notJson "expected value"] =
      .ok [internalErrorResponse "expected value"] ∧
    (internalErrorResponse "expected value").id = Json.null ∧
    (internalErrorResponse "expected value").error.map McpErrorResponse.code =
      some (-32603) ∧
    (internalErrorResponse "expected value").error.map McpErrorResponse.code ≠
      some (-32700) := by
  refine ⟨rfl, rfl, rfl, ?_⟩
  decide

/-- C2 (amended): every non-blank line that fails to decode is answered
with a null-id error response and the loop continues to the next line in
both transport loops; the Kagi binary's loop uses code `-32700`
(parse error), while the generic library's loop uses code `-32603`
(internal error). -/
theorem C2_decode_failure_loop_continues :
    (∀ e, (parseErrorResponse e).id = Json.null ∧
       (parseErrorResponse e).error.map McpErrorResponse.code = some (-32700)) ∧
    (∀ e, (internalErrorResponse e).id = Json.null ∧
       (internalErrorResponse e).error.map McpErrorResponse.code = some (-32603)) ∧
    (∀ (k : KagiMcpServer) (e : String) (rest : List ReadLine),
       k.run (ReadLine.notJson e :: rest) = (k.run rest).map (parseErrorResponse e :: ·)) ∧
    (∀ (k : KagiMcpServer) (j : Json) (e : String) (rest : List ReadLine),
       decodeRequest j = .error e →
       k.run (ReadLine.json j :: rest) = (k.run rest).map (parseErrorResponse e :: ·)) ∧
    (∀ (s : McpServer) (e : String) (rest : List ReadLine),
       s.run (ReadLine.notJson e :: rest) = (s.run rest).map (internalErrorResponse e :: ·)) ∧
    (∀ (s : McpServer) (j : Json) (e : String) (rest : List ReadLine),
       decodeRequest j = .error e →
       s.run (ReadLine.json j :: rest) = (s.run rest).map (internalErrorResponse e :: ·)) := by
  refine ⟨fun e => ⟨rfl, rfl⟩, fun e => ⟨rfl, rfl⟩, fun k e rest => rfl, ?_,
    fun s e rest => rfl, ?_⟩
  · intro k j e rest hd
    simp [KagiMcpServer.run, hd]
  · intro s j e rest hd
    simp [McpServer.run, hd]

/-- Witness for the amended C2: a JSON line that is an empty object fails
to decode, and the Kagi loop answers it with the null-id `-32700` response
and goes on to finish the (empty) remainder of the stream. -/
theorem C2_witness :
    demoKagiServer.run [ReadLine.json (Json.obj [])] =
      .ok [parseErrorResponse "missing field jsonrpc"] := by
  have h := C2_decode_failure_loop_continues.2.2.2.1 demoKagiServer (Json.obj [])
    "missing field jsonrpc" [] rfl
  simpa [KagiMcpServer.run, Except.map] using h

/-- C8: every branch of both dispatchers copies the request's `id` into the
response verbatim, for every id value (null, number, string, or any other
JSON value). -/
theorem C8_id_echoed :
    (∀ (s : McpServer) (req : McpRequest), (s.handleRequest req).id = req.id) ∧
    (∀ (k : KagiMcpServer) (req : McpRequest), (k.handleRequest req).id = req.id) := by
  constructor
  · intro s req
    unfold McpServer.handleRequest McpServer.handleInitialize McpServer.handleToolsList
      McpServer.handleToolsCall
    repeat' split
    all_goals rfl
  · intro k req
    unfold KagiMcpServer.handleRequest KagiMcpServer.dispatchTool kagiContentResponse
      kagiErrResponse
    repeat' split
    all_goals rfl

/-- C9: both transport loops skip a blank line without writing any output
line, and end-of-stream ends the loop with the success result and no
further output. -/
theorem C9_blank_skip_and_eof :
    (∀ s : McpServer, s.run [] = .ok []) ∧
    (∀ k : KagiMcpServer, k.run [] = .ok []) ∧
    (∀ (s : McpServer) (rest : List ReadLine),
       s.run (ReadLine.blank :: rest) = s.run rest) ∧
    (∀ (k : KagiMcpServer) (rest : List ReadLine),
       k.run (ReadLine.blank :: rest) = k.run rest) :=
  ⟨fun _ => rfl, fun _ => rfl, fun _ _ => rfl, fun _ _ => rfl⟩

/-- C5: for every decodable request with method `initialize`, regardless of
params, the generic server's response carries no error and its result holds
the constant protocol version, an empty `capabilities.tools` object, and the
exact server name and version the server was constructed with. -/
theorem C5_initialize_shape (s : McpServer) (req : McpRequest)
    (hm : req.method = "initialize") :
    (s.handleRequest req).error = none ∧
    ((s.handleRequest req).result.bind (Json.getField · "protocolVersion")) =
      some (Json.str MCP_VERSION) ∧
    MCP_VERSION = "2024-11-05" ∧
    (((s.handleRequest req).result.bind (Json.getField · "capabilities")).bind
      (Json.getField · "tools")) = some (Json.obj []) ∧
    (((s.handleRequest req).result.bind (Json.getField · "serverInfo")).bind
      (Json.getField · "name")) = some (Json.str s.server_info.name) ∧
    (((s.handleRequest req).result.bind (Json.getField · "serverInfo")).bind
      (Json.getField · "version")) = some (Json.str s.server_info.version) := by
  have h : s.handleRequest req = s.handleInitialize req := by
    simp [McpServer.handleRequest, hm]
  rw [h]
  exact ⟨rfl, rfl, rfl, rfl, rfl, rfl⟩

/-- A concrete `initialize` request. -/
def demoInitReq : McpRequest :=
  { jsonrpc := "2.0", id := Json.num 1, method := "initialize", params := none }

/-- Witness for C5 at a concrete request and server. -/
theorem C5_witness :
    (demoMcpServer.handleRequest demoInitReq).error = none ∧
    ((demoMcpServer.handleRequest demoInitReq).result.bind
      (Json.getField · "protocolVersion")) = some (Json.str MCP_VERSION) ∧
    MCP_VERSION = "2024-11-05" ∧
    (((demoMcpServer.handleRequest demoInitReq).result.bind
      (Json.getField · "capabilities")).bind (Json.getField · "tools")) =
      some (Json.obj []) ∧
    (((demoMcpServer.handleRequest demoInitReq).result.bind
      (Json.getField · "serverInfo")).bind (Json.getField · "name")) =
      some (Json.str "test-server") ∧
    (((demoMcpServer.handleRequest demoInitReq).result.bind
      (Json.getField · "serverInfo")).bind (Json.getField · "version")) =
      some (Json.str "1.0.0") :=
  C5_initialize_shape demoMcpServer demoInitReq rfl

/-- C6: once a `tools/call` request passes the three structural checks, the
generic dispatcher's response is determined by the handler's `ToolResult`:
content blocks are wrapped verbatim under `content` with no error, and an
error string becomes a code `-1` error with that exact message and no
result. -/
theorem C6_tools_call_outcomes (s : McpServer) (req : McpRequest) (p args : Json)
    (name : String) (hm : req.method = "tools/call") (hp : req.params = some p)
    (hn : (p.getField "name").bind Json.asStr = some name)
    (ha : p.getField "arguments" = some args) :
    (∀ content, s.tool_handler.handleTool name args = .ok content →
       s.handleRequest req =
         { jsonrpc := "2.0", id := req.id,
           result := some (.obj [("content", .arr content)]), error := none }) ∧
    (∀ e, s.tool_handler.handleTool name args = .error e →
       s.handleRequest req =
         { jsonrpc := "2.0", id := req.id, result := none,
           error := some { code := -1, message := e, data := none } }) := by
  have h : s.handleRequest req = s.handleToolsCall req := by
    simp [McpServer.handleRequest, hm]
  rw [h]
  unfold McpServer.handleToolsCall
  constructor
  · intro content hc
    simp [hp, hn, ha, hc]
  · intro e he
    simp [hp, hn, ha, he]

/-- A concrete `tools/call` request for the demo handler's known tool. -/
def demoCallOkReq : McpRequest :=
  { jsonrpc := "2.0", id := Json.num 2, method := "tools/call",
    params := some (.obj [("name", .str "test"), ("arguments", .obj [])]) }

/-- A concrete `tools/call` request the demo handler rejects. -/
def demoCallErrReq : McpRequest :=
  { jsonrpc := "2.0", id := Json.num 3, method := "tools/call",
    params := some (.obj [("name", .str "nope"), ("arguments", .obj [])]) }

/-- Witness for C6: both outcomes at concrete requests. -/
theorem C6_witness :
    demoMcpServer.handleRequest demoCallOkReq =
      { jsonrpc := "2.0", id := Json.num 2,
        result := some (.obj [("content",
          .arr [.obj [("type", Json.str "text"), ("text", Json.str "test result")]])]),
        error := none } ∧
    demoMcpServer.handleRequest demoCallErrReq =
      { jsonrpc := "2.0", id := Json.num 3, result := none,
        error := some { code := -1, message := "Unknown tool: nope", data := none } } :=
  ⟨(C6_tools_call_outcomes demoMcpServer demoCallOkReq _ _ "test" rfl rfl rfl rfl).1 _ rfl,
   (C6_tools_call_outcomes demoMcpServer demoCallErrReq _ _ "nope" rfl rfl rfl rfl).2 _ rfl⟩

/-- C7: every `tools/list` response of the generic server carries no error
and wraps exactly the handler's catalog, element by element in registration
order (hence with equal length); and because the server value is immutable,
repeating the same decodable `tools/list` line any number of times through
the transport loop yields the same response each time. -/
theorem C7_tools_list (s : McpServer) (req : McpRequest) (j : Json) (n : Nat)
    (hm : req.method = "tools/list") (hj : decodeRequest j = .ok req) :
    (s.handleRequest req).error = none ∧
    (s.handleRequest req).result =
      some (.obj [("tools", .arr (s.tool_handler.getTools.map toolJson))]) ∧
    (s.tool_handler.getTools.map toolJson).length = s.tool_handler.getTools.length ∧
    s.run (List.replicate n (ReadLine.json j)) =
      .ok (List.replicate n (s.handleRequest req)) := by
  have h : s.handleRequest req = s.handleToolsList req := by
    simp [McpServer.handleRequest, hm]
  refine ⟨by rw [h]; rfl, by rw [h]; rfl, List.length_map _ _, ?_⟩
  induction n with
  | zero => rfl
  | succ m ih => simp [List.replicate_succ, McpServer.run, hj, ih, Except.map]

/-- A `tools/list` line as a JSON value. -/
def demoListJson : Json :=
  .obj [("jsonrpc", .str "2.0"), ("id", .num 1), ("method", .str "tools/list")]

/-- The request `demoListJson` decodes to. -/
def demoListReq : McpRequest :=
  { jsonrpc := "2.0", id := Json.num 1, method := "tools/list", params := none }

/-- Witness for C7 at a concrete server, request and repetition count. -/
theorem C7_witness :
    (demoMcpServer.handleRequest demoListReq).error = none ∧
    (demoMcpServer.handleRequest demoListReq).result =
      some (.obj [("tools", .arr (demoMcpServer.tool_handler.getTools.map toolJson))]) ∧
    (demoMcpServer.tool_handler.getTools.map toolJson).length =
      demoMcpServer.tool_handler.getTools.length ∧
    demoMcpServer.run (List.replicate 2 (ReadLine.json demoListJson)) =
      .ok (List.replicate 2 (demoMcpServer.handleRequest demoListReq)) :=
  C7_tools_list demoMcpServer demoListReq demoListJson 2 rfl rfl

/-- C3: a structurally valid `tools/call` whose tool name matches no entry
of the Kagi server's static catalog falls through every arm of the tool
dispatch to the wildcard, yielding error code `-32601` with the message
naming that tool.  The response is a literal independent of the oracle
fields, so no tool is invoked. -/
theorem C3_unknown_tool (k : KagiMcpServer) (req : McpRequest) (p args : Json)
    (name : String) (hm : req.method = "tools/call") (hp : req.params = some p)
    (hn : (p.getField "name").bind Json.asStr = some name)
    (ha : p.getField "arguments" = some args)
    (hcat : name ∉ k.getTools.map Tool.name) :
    k.handleRequest req =
      kagiErrResponse req.id (-32601) ("Tool '" ++ name ++ "' not found") := by
  simp only [KagiMcpServer.getTools, List.map_cons, List.map_nil, List.mem_cons,
    List.not_mem_nil, or_false, not_or] at hcat
  obtain ⟨h1, h2, h3, h4, h5⟩ := hcat
  simp [KagiMcpServer.handleRequest, hm, hp, hn, ha, KagiMcpServer.dispatchTool,
    h1, h2, h3, h4, h5]

/-- A concrete `tools/call` request for a name outside the Kagi catalog. -/
def demoUnknownCallReq : McpRequest :=
  { jsonrpc := "2.0", id := Json.num 7, method := "tools/call",
    params := some (.obj [("name", .str "nope"), ("arguments", .obj [])]) }

/-- Witness for C3 at a concrete unknown tool name. -/
theorem C3_witness :
    demoKagiServer.handleRequest demoUnknownCallReq =
      kagiErrResponse (Json.num 7) (-32601) ("Tool '" ++ "nope" ++ "' not found") :=
  C3_unknown_tool demoKagiServer demoUnknownCallReq _ _ "nope" rfl rfl rfl rfl
    (by decide)

/-- C4: in both dispatchers the three structural checks of `tools/call` run
in priority order — absent `params`, then absent/non-string `params.name`,
then absent `params.arguments` — each answered by `-32602` with its fixed
message.  Every conclusion is a response literal that does not mention the
tool handler or the oracle fields, so the tool handler is never invoked on
these paths. -/
theorem C4_structural_param_errors :
    (∀ (s : McpServer) (req : McpRequest), req.method = "tools/call" →
       req.params = none →
       s.handleRequest req =
         { jsonrpc := "2.0", id := req.id, result := none,
           error := some { code := -32602, message := "Missing parameters",
                           data := none } }) ∧
    (∀ (s : McpServer) (req : McpRequest) (p : Json), req.method = "tools/call" →
       req.params = some p → (p.getField "name").bind Json.asStr = none →
       s.handleRequest req =
         { jsonrpc := "2.0", id := req.id, result := none,
           error := some { code := -32602, message := "Missing name parameter",
                           data := none } }) ∧
    (∀ (s : McpServer) (req : McpRequest) (p : Json) (name : String),
       req.method = "tools/call" → req.params = some p →
       (p.getField "name").bind Json.asStr = some name →
       p.getField "arguments" = none →
       s.handleRequest req =
         { jsonrpc := "2.0", id := req.id, result := none,
           error := some { code := -32602, message := "Missing arguments parameter",
                           data := none } }) ∧
    (∀ (k : KagiMcpServer) (req : McpRequest), req.method = "tools/call" →
       req.params = none →
       k.handleRequest req = kagiErrResponse req.id (-32602) "Missing parameters") ∧
    (∀ (k : KagiMcpServer) (req : McpRequest) (p : Json), req.method = "tools/call" →
       req.params = some p → (p.getField "name").bind Json.asStr = none →
       k.handleRequest req = kagiErrResponse req.id (-32602) "Missing name parameter") ∧
    (∀ (k : KagiMcpServer) (req : McpRequest) (p : Json) (name : String),
       req.method = "tools/call" → req.params = some p →
       (p.getField "name").bind Json.asStr = some name →
       p.getField "arguments" = none →
       k.handleRequest req =
         kagiErrResponse req.id (-32602) "Missing arguments parameter") := by
  refine ⟨?_, ?_, ?_, ?_, ?_, ?_⟩
  · intro s req hm hp
    simp [McpServer.handleRequest, hm, McpServer.handleToolsCall, hp]
  · intro s req p hm hp hn
    simp [McpServer.handleRequest, hm, McpServer.handleToolsCall, hp, hn]
  · intro s req p name hm hp hn ha
    simp [McpServer.handleRequest, hm, McpServer.handleToolsCall, hp, hn, ha]
  · intro k req hm hp
    simp [KagiMcpServer.handleRequest, hm, hp]
  · intro k req p hm hp hn
    simp [KagiMcpServer.handleRequest, hm, hp, hn]
  · intro k req p name hm hp hn ha
    simp [KagiMcpServer.handleRequest, hm, hp, hn, ha]

/-- A `tools/call` request with no `params` at all. -/
def demoNoParamsReq : McpRequest :=
  { jsonrpc := "2.0", id := Json.num 4, method := "tools/call", params := none }

/-- A `tools/call` request whose `params.name` is present but not a string. -/
def demoBadNameReq : McpRequest :=
  { jsonrpc := "2.0", id := Json.num 5, method := "tools/call",
    params := some (.obj [("name", .num 3), ("arguments", .obj [])]) }

/-- A `tools/call` request with a string `name` but no `arguments`. -/
def demoNoArgsReq : McpRequest :=
  { jsonrpc := "2.0", id := Json.num 6, method := "tools/call",
    params := some (.obj [("name", .str "test")]) }

/-- Witness for C4: each structural error at a concrete request, on both
servers. -/
theorem C4_witness :
    demoMcpServer.handleRequest demoNoParamsReq =
      { jsonrpc := "2.0", id := Json.num 4, result := none,
        error := some { code := -32602, message := "Missing parameters",
                        data := none } } ∧
    demoMcpServer.handleRequest demoBadNameReq =
      { jsonrpc := "2.0", id := Json.num 5, result := none,
        error := some { code := -32602, message := "Missing name parameter",
                        data := none } } ∧
    demoMcpServer.handleRequest demoNoArgsReq =
      { jsonrpc := "2.0", id := Json.num 6, result := none,
        error := some { code := -32602, message := "Missing arguments parameter",
                        data := none } } ∧
    demoKagiServer.handleRequest demoNoParamsReq =
      kagiErrResponse (Json.num 4) (-32602) "Missing parameters" ∧
    demoKagiServer.handleRequest demoBadNameReq =
      kagiErrResponse (Json.num 5) (-32602) "Missing name parameter" ∧
    demoKagiServer.handleRequest demoNoArgsReq =
      kagiErrResponse (Json.num 6) (-32602) "Missing arguments parameter" :=
  ⟨C4_structural_param_errors.1 demoMcpServer demoNoParamsReq rfl rfl,
   C4_structural_param_errors.2.1 demoMcpServer demoBadNameReq _ rfl rfl rfl,
   C4_structural_param_errors.2.2.1 demoMcpServer demoNoArgsReq _ "test" rfl rfl rfl rfl,
   C4_structural_param_errors.2.2.2.1 demoKagiServer demoNoParamsReq rfl rfl,
   C4_structural_param_errors.2.2.2.2.1 demoKagiServer demoBadNameReq _ rfl rfl rfl,
   C4_structural_param_errors.2.2.2.2.2 demoKagiServer demoNoArgsReq _ "test" rfl rfl
     rfl rfl⟩

/-- C10: a JSON line lacking a `jsonrpc` or an `id` field (for example a
JSON-RPC notification carrying only `method` and `params`) fails to decode
as an `McpRequest` — both fields are mandatory in the derived
deserializer — and both transport loops answer it with their decode-failure
error response instead of dispatching it. -/
theorem C10_notification_rejected (j : Json)
    (h : j.getField "jsonrpc" = none ∨ j.getField "id" = none) :
    ∃ e, decodeRequest j = .error e ∧
      (∀ (k : KagiMcpServer) (rest : List ReadLine),
        k.run (ReadLine.json j :: rest) = (k.run rest).map (parseErrorResponse e :: ·)) ∧
      (∀ (s : McpServer) (rest : List ReadLine),
        s.run (ReadLine.json j :: rest) =
          (s.run rest).map (internalErrorResponse e :: ·)) := by
  have hdec : ∃ e, decodeRequest j = .error e := by
    cases j with
    | obj fields =>
      rcases h with h | h
      · exact ⟨"missing field jsonrpc", by simp [decodeRequest, h]⟩
      · cases hj : Json.getField (.obj fields) "jsonrpc" with
        | none => exact ⟨"missing field jsonrpc", by simp [decodeRequest, hj]⟩
        | some v =>
          cases hs : v.asStr with
          | none => exact ⟨"invalid type for field jsonrpc", by simp [decodeRequest, hj, hs]⟩
          | some jr => exact ⟨"missing field id", by simp [decodeRequest, hj, hs, h]⟩
    | null => exact ⟨_, rfl⟩
    | bool b => exact ⟨_, rfl⟩
    | num n => exact ⟨_, rfl⟩
    | str t => exact ⟨_, rfl⟩
    | arr xs => exact ⟨_, rfl⟩
  obtain ⟨e, he⟩ := hdec
  exact ⟨e, he, fun k rest => by simp [KagiMcpServer.run, he],
         fun s rest => by simp [McpServer.run, he]⟩

/-- A notification-shaped line: valid JSON, `method` and `params` only. -/
def demoNotificationJson : Json :=
  .obj [("method", .str "notifications/initialized"), ("params", .obj [])]

/-- Witness for C10 at the notification-shaped line. -/
theorem C10_witness :
    decodeRequest demoNotificationJson = .error "missing field jsonrpc" ∧
    demoKagiServer.run [ReadLine.json demoNotificationJson] =
      .ok [parseErrorResponse "missing field jsonrpc"] ∧
    demoMcpServer.run [ReadLine.json demoNotificationJson] =
      .ok [internalErrorResponse "missing field jsonrpc"] := by
  obtain ⟨e, he, hk, hs⟩ := C10_notification_rejected demoNotificationJson (Or.inl rfl)
  have hee : e = "missing field jsonrpc" := by
    have h2 : Except.error (ε := String) (α := McpRequest) e =
        .error "missing field jsonrpc" :=
      he.symm.trans (rfl : decodeRequest demoNotificationJson = .error "missing field jsonrpc")
    exact Except.error.inj h2
  subst hee
  exact ⟨he, by simpa [KagiMcpServer.run, Except.map] using hk demoKagiServer [],
    by simpa [McpServer.run, Except.map] using hs demoMcpServer []⟩
